import Mathlib

/-!
# DB-Notifier: snapshot-diff and report-aggregation engine

Shallow embedding of the core computation layer of the DB-Notifier
repository (`src/core/inventory_tracker.py` and
`src/core/report_generator.py`).

An inventory snapshot is a list of flat records queried from the
database.  Records are Python dicts, so every field may be absent; we
model each field as an `Option`.  A pandas `DataFrame` built from such a
list has a column exactly when some record carries the field, which
`hasCol` captures.  Quantities are integers (`bestand` column of the
database), percentages are exact rationals standing for the Python
floats.  File and logging side effects of the Python methods are not
part of the computed values and are omitted; the returned report
dictionaries are modelled as structures, an optional dictionary key as
an `Option` field.
-/

set_option autoImplicit false

/-- One inventory record, as produced by `_query_current_inventory`
(columns `artikel_id, artikelnummer, bezeichnung, hersteller, kategorie,
status, bestand, lager_id, lager_name`).  Every field is optional
because records are dicts read back from JSON. -/
structure Record where
  artikel_id : Option Nat
  artikelnummer : Option String
  bezeichnung : Option String
  hersteller : Option String
  kategorie : Option String
  status : Option String
  bestand : Option Int
  lager_id : Option Nat
  lager_name : Option String
deriving DecidableEq, Repr

/-- `item.get('bestand', 0)`: a record without the quantity field counts
as quantity 0. -/
def Record.qty (r : Record) : Int := r.bestand.getD 0

/-- The comparison key built in `compare_inventory_levels` /
`_calculate_changes`:
`artikel_id.astype(str) + '_' + lager_id.astype(str)`.  For the numeric
identifiers of the database this string is in bijection with the pair,
so we model the key as the pair of identifiers. -/
def Record.key (r : Record) : Nat × Nat := (r.artikel_id.getD 0, r.lager_id.getD 0)

/-- A pandas DataFrame built from `data` has column `f` exactly when
some record carries the field. -/
def hasCol {α : Type} (data : List Record) (f : Record → Option α) : Bool :=
  data.any fun r => (f r).isSome

/-- `compare_inventory_levels` line 160: required columns
`['artikel_id', 'artikelnummer', 'bestand', 'lager_id']`. -/
def compareRequiredCols (data : List Record) : Bool :=
  hasCol data Record.artikel_id && hasCol data Record.artikelnummer &&
    hasCol data Record.bestand && hasCol data Record.lager_id

/-- `detect_deactivations` lines 264-265: required columns
`artikel_id` and `status` in both inputs. -/
def deactRequiredCols (data : List Record) : Bool :=
  hasCol data Record.artikel_id && hasCol data Record.status

/-- One row of the quantity merge (`pd.merge(..., on='key', how='outer',
suffixes=('_current', '_previous'))`) restricted to the columns the
change computation reads; the descriptive columns
(`artikelnummer`, `bezeichnung`, `status`) carried along by the source
do not enter any computed number.  `bestand_current` and
`bestand_previous` are the values after `fillna(0)`. -/
structure MergedQty where
  key : Nat × Nat
  bestand_current : Int
  bestand_previous : Int
deriving DecidableEq, Repr

/-- `merged['change'] = merged['bestand_current'] - merged['bestand_previous']`. -/
def MergedQty.change (m : MergedQty) : Int := m.bestand_current - m.bestand_previous

/-- `merged['change_percent'] = (merged['change'] / merged['bestand_previous'].replace(0, 1)) * 100`. -/
def MergedQty.change_percent (m : MergedQty) : ℚ :=
  (m.change : ℚ) / (if m.bestand_previous = 0 then 1 else (m.bestand_previous : ℚ)) * 100

/-- The outer merge on `key` of the two snapshots followed by
`fillna(0)` on both quantity columns: every current row is paired with
every previous row of equal key (quantity 0 when unmatched), and the
previous rows matching no current key are appended with current
quantity 0. -/
def mergedRows (current previous : List Record) : List MergedQty :=
  (current.flatMap fun c =>
    let ms := previous.filter fun p => decide (p.key = c.key)
    if ms.isEmpty then [{ key := c.key, bestand_current := c.qty, bestand_previous := 0 }]
    else ms.map fun p => { key := c.key, bestand_current := c.qty, bestand_previous := p.qty })
  ++ ((previous.filter fun p => ! current.any fun c => decide (c.key = p.key)).map fun p =>
      { key := p.key, bestand_current := 0, bestand_previous := p.qty })

/-- `abs(merged['change_percent']) >= threshold`. -/
def isSignificant (threshold : ℚ) (m : MergedQty) : Bool :=
  decide (threshold ≤ |m.change_percent|)

namespace InventoryTracker

/-- The dictionary returned by
`InventoryTracker.compare_inventory_levels` (the `timestamp` key, a
wall-clock string, is omitted). -/
structure CompareReport where
  total_articles : Nat
  significant_changes : Nat
  details : List MergedQty
deriving DecidableEq, Repr

/-- `InventoryTracker.compare_inventory_levels` (lines 143-211).
`none` models the empty dict `{}` returned when a required column is
missing from either input (lines 159-164); otherwise the change report
of the outer merge.  `threshold` is `self.highlight_threshold`. -/
def compare_inventory_levels (threshold : ℚ) (current previous : List Record) :
    Option CompareReport :=
  if compareRequiredCols current && compareRequiredCols previous then
    let significant := (mergedRows current previous).filter (isSignificant threshold)
    some { total_articles := current.length
         , significant_changes := significant.length
         , details := significant }
  else none

/-- `InventoryTracker.detect_zero_inventory` (lines 213-245): keep the
records with `item.get('bestand', 0) == 0 and item.get('status') == 'aktiv'`. -/
def detect_zero_inventory (inventory_data : List Record) : List Record :=
  inventory_data.filter fun r => decide (r.qty = 0) && decide (r.status = some "aktiv")

end InventoryTracker

/-- One row of the status merge
(`pd.merge(current_status, previous_status, on='artikel_id', how='inner',
suffixes=('_current', '_previous'))`). -/
structure StatusRow where
  artikel_id : Option Nat
  artikelnummer : Option String
  bezeichnung : Option String
  status_current : Option String
  status_previous : Option String
deriving DecidableEq, Repr

/-- The inner merge on `artikel_id` of the status projections of the
two snapshots: each current row is paired with every previous row
carrying the same `artikel_id`. -/
def statusMerged (current previous : List Record) : List StatusRow :=
  current.flatMap fun c =>
    (previous.filter fun p => decide (p.artikel_id = c.artikel_id)).map fun p =>
      { artikel_id := c.artikel_id
      , artikelnummer := c.artikelnummer
      , bezeichnung := c.bezeichnung
      , status_current := c.status
      , status_previous := p.status }

/-- `merged[(merged['status_previous'] == 'aktiv') & (merged['status_current'] == 'inaktiv')]`. -/
def deactivatedRows (current previous : List Record) : List StatusRow :=
  (statusMerged current previous).filter fun m =>
    decide (m.status_previous = some "aktiv") && decide (m.status_current = some "inaktiv")

namespace InventoryTracker

/-- `InventoryTracker.detect_deactivations` (lines 247-305): the empty
list when the `artikel_id` or `status` column is missing from either
input (lines 263-267), otherwise the active-to-inactive rows of the
inner status merge. -/
def detect_deactivations (current previous : List Record) : List StatusRow :=
  if deactRequiredCols current && deactRequiredCols previous then
    deactivatedRows current previous
  else []

end InventoryTracker

namespace ReportGenerator

/-- The dictionary returned by `ReportGenerator._calculate_changes`
(lines 322-366). -/
structure ChangesReport where
  total_items : Nat
  increased : Nat
  decreased : Nat
  unchanged : Nat
  significant_changes : List MergedQty
deriving DecidableEq, Repr

/-- `ReportGenerator._calculate_changes` (lines 322-366): the outer
quantity merge with change counts and the significant subset.
`threshold` is `self.highlight_threshold`. -/
def calculate_changes (threshold : ℚ) (current previous : List Record) : ChangesReport :=
  let merged := mergedRows current previous
  { total_items := merged.length
  , increased := (merged.filter fun m => decide (0 < m.change)).length
  , decreased := (merged.filter fun m => decide (m.change < 0)).length
  , unchanged := (merged.filter fun m => decide (m.change = 0)).length
  , significant_changes := merged.filter (isSignificant threshold) }

/-- `ReportGenerator._detect_deactivations` (lines 368-400): same
active-to-inactive filter of the inner status merge, without the
column check of the tracker version. -/
def detect_deactivations (current previous : List Record) : List StatusRow :=
  deactivatedRows current previous

/-- The projection of a record stored in the `zero_inventory` list of a
daily report (`generate_daily_report` lines 85-91). -/
structure ZeroItem where
  artikel_id : Option Nat
  artikelnummer : Option String
  bezeichnung : Option String
  lager_id : Option Nat
  lager_name : Option String
deriving DecidableEq, Repr

/-- The field selection applied to a zero-stock record in
`generate_daily_report`. -/
def zeroItemOf (r : Record) : ZeroItem :=
  { artikel_id := r.artikel_id
  , artikelnummer := r.artikelnummer
  , bezeichnung := r.bezeichnung
  , lager_id := r.lager_id
  , lager_name := r.lager_name }

/-- The daily report dictionary (`generate_daily_report` lines 74-96);
the `date` and `generated_at` wall-clock strings are omitted.  The
`changes` and `deactivations` keys are only present when previous-day
data exists, hence the `Option` fields. -/
structure DailyReport where
  total_articles : Nat
  active_articles : Nat
  zero_inventory : List ZeroItem
  changes : Option ChangesReport
  deactivations : Option (List StatusRow)
deriving DecidableEq, Repr

/-- `ReportGenerator.generate_daily_report` (lines 47-112) on
already-retrieved snapshots: `current` is
`retrieve_historical_data(report_date)` and `previous` is
`retrieve_historical_data(report_date - 1 day)`; per lines 361-366 of
the tracker an absent snapshot file (NotFound) yields `[]`.  Empty
current data returns `None` (line 65-67); the `changes` and
`deactivations` keys are added only when `previous` is non-empty
(lines 93-96). -/
def generate_daily_report (threshold : ℚ) (current previous : List Record) :
    Option DailyReport :=
  if current.isEmpty then none
  else some
    { total_articles := current.length
    , active_articles := (current.filter fun r => decide (r.status = some "aktiv")).length
    , zero_inventory :=
        (current.filter fun r => decide (r.qty = 0) && decide (r.status = some "aktiv")).map
          zeroItemOf
    , changes :=
        if previous.isEmpty then none
        else some (calculate_changes threshold current previous)
    , deactivations :=
        if previous.isEmpty then none
        else some (detect_deactivations current previous) }

/-- `sum(1 for item in data if item.get('status') == 'aktiv')`. -/
def activeCount (data : List Record) : Nat :=
  (data.filter fun r => decide (r.status = some "aktiv")).length

/-- `sum(1 for item in data if item.get('bestand', 0) == 0 and item.get('status') == 'aktiv')`. -/
def zeroCount (data : List Record) : Nat :=
  (data.filter fun r => decide (r.qty = 0) && decide (r.status = some "aktiv")).length

/-- The trend classification of `_generate_trend_summary`
(lines 431-441): with more than one date, compare the active count of
the first date with that of the last; `'stable'` otherwise.  The dates
of `inventory_data` are the distinct keys of the Python dict in
insertion order, so the dict lookups at `dates[0]` and `dates[-1]`
are the first and last entries of the association list. -/
def trendLabel (inventory_data : List (String × List Record)) : String :=
  match inventory_data with
  | [] => "stable"
  | [_] => "stable"
  | x :: y :: ys =>
    let firstActive : ℚ := activeCount x.2
    let lastActive : ℚ := activeCount ((y :: ys).getLastD x).2
    if firstActive * 1.05 < lastActive then "increasing"
    else if lastActive < firstActive * 0.95 then "decreasing"
    else "stable"

/-- The dictionary built by `_generate_trend_summary` (lines 402-442);
the per-date dicts are association lists keyed by the (distinct) date
strings. -/
structure TrendSummary where
  dates : List String
  total_articles : List (String × Nat)
  active_articles : List (String × Nat)
  zero_inventory : List (String × Nat)
  avg_articles_per_day : ℚ
  trend : String
deriving DecidableEq, Repr

/-- `ReportGenerator._generate_trend_summary` (lines 402-442). -/
def generate_trend_summary (inventory_data : List (String × List Record)) : TrendSummary :=
  { dates := inventory_data.map Prod.fst
  , total_articles := inventory_data.map fun x => (x.1, x.2.length)
  , active_articles := inventory_data.map fun x => (x.1, activeCount x.2)
  , zero_inventory := inventory_data.map fun x => (x.1, zeroCount x.2)
  , avg_articles_per_day :=
      if inventory_data.isEmpty then 0
      else (inventory_data.map fun x => (x.2.length : ℚ)).sum / inventory_data.length
  , trend := trendLabel inventory_data }

/-- The in-place category filter of `generate_trend_report`
(lines 164-168): restrict each date's records to those with
`item.get('kategorie') == category`. -/
def filterCategory (category : String) (inventory_data : List (String × List Record)) :
    List (String × List Record) :=
  inventory_data.map fun x => (x.1, x.2.filter fun r => decide (r.kategorie = some category))

/-- The trend report dictionary (`generate_trend_report` lines 152-172);
the date-range strings and file paths are omitted, and the charts are
modelled by the per-date counts `_generate_trend_charts` plots
(lines 462-469). -/
structure TrendReport where
  category : Option String
  summary : TrendSummary
  chart_active : List (String × Nat)
  chart_zero : List (String × Nat)
deriving DecidableEq, Repr

/-- `ReportGenerator.generate_trend_report` (lines 114-188) on the
already-retrieved per-date data: `None` when no date of the range has
data (lines 148-150); otherwise the summary is computed on the
unfiltered data (line 157) and the category filter is applied
afterwards (lines 161-168), so only the chart data (line 171) sees the
filtered records. -/
def generate_trend_report (inventory_data : List (String × List Record))
    (category : Option String) : Option TrendReport :=
  if inventory_data.isEmpty then none
  else
    let summary := generate_trend_summary inventory_data
    let filtered :=
      match category with
      | none => inventory_data
      | some c => filterCategory c inventory_data
    some { category := category
         , summary := summary
         , chart_active := filtered.map fun x => (x.1, activeCount x.2)
         , chart_zero := filtered.map fun x => (x.1, zeroCount x.2) }

end ReportGenerator

/-!
## Concrete inputs used by scenarios, witnesses and counterexamples
-/

/-- The current record of the spec scenario
`{id:1, wh:A, qty:0, status:active}`; the warehouse name `A` is encoded
as `lager_id = 1`. -/
def scenarioCurrent : Record :=
  ⟨some 1, some "A1", some "Ware", none, none, some "aktiv", some 0, some 1, some "A"⟩

/-- The previous record of the spec scenario
`{id:1, wh:A, qty:50, status:active}`. -/
def scenarioPrevious : Record :=
  ⟨some 1, some "A1", some "Ware", none, none, some "aktiv", some 50, some 1, some "A"⟩

/-- A fully-populated active record. -/
def fullRecord : Record :=
  ⟨some 7, some "B2", some "Ding", some "H", some "K", some "aktiv", some 3, some 2, some "B"⟩

/-- A record whose `bestand` field is absent. -/
def noQuantityRecord : Record :=
  ⟨some 8, some "B3", some "Ding", some "H", some "K", some "aktiv", none, some 2, some "B"⟩

/-- A record whose `status` field is absent. -/
def noStatusRecord : Record :=
  ⟨some 9, some "B4", some "Ding", some "H", some "K", none, some 4, some 2, some "B"⟩

/-- Current-side record of item 1, now inactive. -/
def deactivatedCurrent : Record :=
  ⟨some 1, some "A1", some "x", none, none, some "inaktiv", some 5, some 1, none⟩

/-- Previous-side record of item 1, then active: a deactivation. -/
def deactivatedPrevious : Record :=
  ⟨some 1, some "A1", some "x", none, none, some "aktiv", some 5, some 1, none⟩

/-- Current-side record of item 2, now active. -/
def reactivatedCurrent : Record :=
  ⟨some 2, some "A2", some "y", none, none, some "aktiv", some 5, some 1, none⟩

/-- Previous-side record of item 2, then inactive: a reactivation,
which the detector must not report. -/
def reactivatedPrevious : Record :=
  ⟨some 2, some "A2", some "y", none, none, some "inaktiv", some 5, some 1, none⟩

/-- The status row the detectors report for item 1. -/
def deactivationRow : StatusRow :=
  ⟨some 1, some "A1", some "x", some "inaktiv", some "aktiv"⟩

/-- Two consecutive daily snapshots whose active counts are `a` and `b`. -/
def trendData (a b : Nat) : List (String × List Record) :=
  [("2024-01-01", List.replicate a fullRecord),
   ("2024-01-02", List.replicate b fullRecord)]

/-- One snapshot date holding an active record of category `"A"` and an
active record of category `"B"`. -/
def mixedCategoryData : List (String × List Record) :=
  [("2024-01-01",
    [⟨some 1, some "A1", none, none, some "A", some "aktiv", some 1, some 1, none⟩,
     ⟨some 2, some "A2", none, none, some "B", some "aktiv", some 1, some 1, none⟩])]

/-!
## Helper lemmas
-/

/-- A record counted by `activeCount` contributes once per copy. -/
theorem activeCount_replicate (n : Nat) (r : Record) (h : r.status = some "aktiv") :
    ReportGenerator.activeCount (List.replicate n r) = n := by
  simp [ReportGenerator.activeCount, List.filter_replicate, h]

/-- A `flatMap` whose function returns singletons on the list is a `map`. -/
theorem flatMap_eq_map_of_forall {α β : Type} (f : α → List β) (g : α → β) :
    ∀ l : List α, (∀ c ∈ l, f c = [g c]) → l.flatMap f = l.map g
  | [], _ => rfl
  | a :: tl, h => by
    rw [List.flatMap_cons, List.map_cons,
      h a (List.mem_cons_self a tl),
      flatMap_eq_map_of_forall f g tl (fun c hc => h c (List.mem_cons_of_mem a hc)),
      List.singleton_append]

/-- In a snapshot with pairwise-distinct keys, filtering by the key of a
member record returns exactly that record. -/
theorem filter_key_self (c : Record) :
    ∀ S : List Record, c ∈ S → (S.map Record.key).Nodup →
      S.filter (fun p => decide (p.key = c.key)) = [c]
  | [], hc, _ => absurd hc (List.not_mem_nil c)
  | a :: tl, hc, h => by
    rw [List.map_cons, List.nodup_cons] at h
    obtain ⟨ha, htl⟩ := h
    rcases List.mem_cons.1 hc with rfl | hcl
    · have htl0 : tl.filter (fun p => decide (p.key = c.key)) = [] := by
        rw [List.filter_eq_nil_iff]
        intro b hb hbk
        exact ha (by
          rw [← of_decide_eq_true hbk]
          exact List.mem_map_of_mem Record.key hb)
      simp [List.filter_cons, htl0]
    · have hak : ¬a.key = c.key := fun he =>
        ha (he ▸ List.mem_map_of_mem Record.key hcl)
      simp only [List.filter_cons, decide_eq_true_eq, hak, if_false]
      exact filter_key_self c tl hcl htl

/-- Merging a snapshot with distinct keys against itself pairs every
record with itself. -/
theorem mergedRows_self (S : List Record) (hkeys : (S.map Record.key).Nodup) :
    mergedRows S S = S.map fun c => ⟨c.key, c.qty, c.qty⟩ := by
  unfold mergedRows
  have h2 : (S.filter fun p => ! S.any fun c => decide (c.key = p.key)) = [] := by
    rw [List.filter_eq_nil_iff]
    intro p hp hcontra
    rw [Bool.not_eq_true', List.any_eq_false] at hcontra
    exact hcontra p hp (decide_eq_true rfl)
  rw [h2, List.map_nil, List.append_nil]
  apply flatMap_eq_map_of_forall
  intro c hc
  rw [filter_key_self c S hc hkeys]
  simp

/-- A merged row whose current and previous quantity agree has change 0
and change percentage 0, hence is never significant for a positive
threshold. -/
theorem isSignificant_refl_row (t : ℚ) (ht : 0 < t) (k : Nat × Nat) (q : Int) :
    (⟨k, q, q⟩ : MergedQty).change = 0 ∧
      (⟨k, q, q⟩ : MergedQty).change_percent = 0 ∧
      isSignificant t ⟨k, q, q⟩ = false := by
  have hc : (⟨k, q, q⟩ : MergedQty).change = 0 := by
    simp [MergedQty.change]
  have hp : (⟨k, q, q⟩ : MergedQty).change_percent = 0 := by
    rw [MergedQty.change_percent, hc]
    push_cast
    ring
  refine ⟨hc, hp, ?_⟩
  rw [isSignificant, hp, decide_eq_false_iff_not]
  simpa using ht

/-!
## Claim theorems
-/

/-- C3: for every snapshot `S` with pairwise-distinct comparison keys
and every threshold strictly greater than 0, comparing `S` with itself
produces change 0 for every joined row and an empty set of significant
changes, in both implementations (`_calculate_changes` and
`compare_inventory_levels`). -/
theorem computeChanges_self_idempotent (t : ℚ) (S : List Record)
    (ht : 0 < t) (hkeys : (S.map Record.key).Nodup) :
    (∀ m ∈ mergedRows S S, m.change = 0) ∧
    (ReportGenerator.calculate_changes t S S).significant_changes = [] ∧
    ∀ rep, InventoryTracker.compare_inventory_levels t S S = some rep →
      rep.significant_changes = 0 ∧ rep.details = [] := by
  have hm := mergedRows_self S hkeys
  have hfil : (mergedRows S S).filter (isSignificant t) = [] := by
    rw [hm, List.filter_eq_nil_iff]
    intro m hmem
    obtain ⟨c, hc, rfl⟩ := List.mem_map.1 hmem
    rw [(isSignificant_refl_row t ht c.key c.qty).2.2]
    simp
  refine ⟨?_, ?_, ?_⟩
  · intro m hmem
    rw [hm] at hmem
    obtain ⟨c, hc, rfl⟩ := List.mem_map.1 hmem
    exact (isSignificant_refl_row t ht c.key c.qty).1
  · simpa [ReportGenerator.calculate_changes] using hfil
  · intro rep hrep
    simp only [InventoryTracker.compare_inventory_levels] at hrep
    by_cases hcols : (compareRequiredCols S && compareRequiredCols S) = true
    · rw [if_pos hcols] at hrep
      have hx := Option.some.inj hrep
      subst hx
      constructor
      · simp [hfil]
      · simp [hfil]
    · rw [if_neg hcols] at hrep
      exact absurd hrep (by simp)

/-- C5: the merge of `computeChanges` is an outer join on the key: a
joined row whose key is absent from `previous` has
`bestand_previous = 0`, one whose key is absent from `current` has
`bestand_current = 0`, and when the two snapshots share no key the
joined rows are exactly one "new" line per current record and one
"removed" line per previous record — no row is dropped
(`total_items` of `_calculate_changes` is the sum of the two sizes). -/
theorem computeChanges_outer_join (current previous : List Record) :
    (∀ m ∈ mergedRows current previous,
        (m.key ∉ previous.map Record.key → m.bestand_previous = 0) ∧
        (m.key ∉ current.map Record.key → m.bestand_current = 0)) ∧
    ((∀ k ∈ current.map Record.key, k ∉ previous.map Record.key) →
      mergedRows current previous =
        current.map (fun c => ⟨c.key, c.qty, 0⟩) ++
          previous.map (fun p => ⟨p.key, 0, p.qty⟩)) ∧
    ∀ t : ℚ, (∀ k ∈ current.map Record.key, k ∉ previous.map Record.key) →
      (ReportGenerator.calculate_changes t current previous).total_items =
        current.length + previous.length := by
  have part2 : (∀ k ∈ current.map Record.key, k ∉ previous.map Record.key) →
      mergedRows current previous =
        current.map (fun c => ⟨c.key, c.qty, 0⟩) ++
          previous.map (fun p => ⟨p.key, 0, p.qty⟩) := by
    intro hdisj
    unfold mergedRows
    have hfilnil : ∀ c ∈ current,
        (previous.filter fun p => decide (p.key = c.key)) = [] := by
      intro c hc
      rw [List.filter_eq_nil_iff]
      intro p hp hpk
      exact hdisj c.key (List.mem_map_of_mem Record.key hc)
        (by
          rw [← of_decide_eq_true hpk]
          exact List.mem_map_of_mem Record.key hp)
    have hfull : (previous.filter fun p =>
        ! current.any fun c => decide (c.key = p.key)) = previous := by
      rw [List.filter_eq_self]
      intro p hp
      rw [Bool.not_eq_true', List.any_eq_false]
      intro c hc hck
      exact hdisj c.key (List.mem_map_of_mem Record.key hc)
        (by
          rw [of_decide_eq_true hck]
          exact List.mem_map_of_mem Record.key hp)
    rw [hfull]
    have hflat : current.flatMap (fun c =>
        let ms := previous.filter fun p => decide (p.key = c.key)
        if ms.isEmpty then
          [{ key := c.key, bestand_current := c.qty, bestand_previous := 0 }]
        else ms.map fun p =>
          { key := c.key, bestand_current := c.qty, bestand_previous := p.qty }) =
        current.map (fun c => (⟨c.key, c.qty, 0⟩ : MergedQty)) := by
      apply flatMap_eq_map_of_forall
      intro c hc
      simp [hfilnil c hc]
    rw [hflat]
  refine ⟨?_, part2, ?_⟩
  · intro m hmem
    rcases List.mem_append.1 hmem with hL | hR
    · obtain ⟨c, hc, hmc⟩ := List.mem_flatMap.1 hL
      by_cases hms : (previous.filter fun p => decide (p.key = c.key)).isEmpty
      · rw [if_pos hms] at hmc
        rcases List.mem_singleton.1 hmc with rfl
        exact ⟨fun _ => rfl,
          fun hk => absurd (List.mem_map_of_mem Record.key hc) hk⟩
      · rw [if_neg hms] at hmc
        obtain ⟨p, hp, rfl⟩ := List.mem_map.1 hmc
        have hpk := of_decide_eq_true (List.mem_filter.1 hp).2
        have hpprev : p ∈ previous := (List.mem_filter.1 hp).1
        constructor
        · intro hk
          exact absurd (by
            rw [← hpk]
            exact List.mem_map_of_mem Record.key hpprev) hk
        · intro hk
          exact absurd (List.mem_map_of_mem Record.key hc) hk
    · obtain ⟨p, hp, rfl⟩ := List.mem_map.1 hR
      have hpprev := (List.mem_filter.1 hp).1
      exact ⟨fun hk => absurd (List.mem_map_of_mem Record.key hpprev) hk,
        fun _ => rfl⟩
  · intro t hdisj
    simp [ReportGenerator.calculate_changes, part2 hdisj]

/-- C4: on a snapshot whose records all carry the quantity field,
`detect_zero_inventory` returns exactly the records with status active
and quantity 0 (multiplicity preserved, so a record present once
appears exactly once and no other record appears), it is total, and the
empty snapshot yields the empty list. -/
theorem detect_zero_inventory_spec (S : List Record) (r : Record)
    (hwf : ∀ x ∈ S, x.bestand.isSome) :
    ((InventoryTracker.detect_zero_inventory S).count r =
      if r.status = some "aktiv" ∧ r.bestand = some 0 then S.count r else 0) ∧
    InventoryTracker.detect_zero_inventory [] = [] ∧
    ∀ x, x ∈ InventoryTracker.detect_zero_inventory S ↔
      x ∈ S ∧ x.qty = 0 ∧ x.status = some "aktiv" := by
  refine ⟨?_, rfl, ?_⟩
  · by_cases hmem : r ∈ S
    · have hsome := hwf r hmem
      obtain ⟨v, hv⟩ := Option.isSome_iff_exists.1 hsome
      by_cases hcond : r.status = some "aktiv" ∧ r.bestand = some 0
      · rw [if_pos hcond]
        apply List.count_filter
        have hq : r.qty = 0 := by
          rw [Record.qty, hcond.2]
          rfl
        simp [hq, hcond.1]
      · rw [if_neg hcond]
        apply List.count_eq_zero_of_not_mem
        intro hin
        rw [InventoryTracker.detect_zero_inventory, List.mem_filter,
          Bool.and_eq_true, decide_eq_true_eq, decide_eq_true_eq] at hin
        obtain ⟨-, hq, hs⟩ := hin
        rw [Record.qty, hv] at hq
        simp only [Option.getD_some] at hq
        exact hcond ⟨hs, by rw [hv, hq]⟩
    · have hz2 : (InventoryTracker.detect_zero_inventory S).count r = 0 := by
        apply List.count_eq_zero_of_not_mem
        intro hin
        exact hmem (List.mem_filter.1 hin).1
      rw [hz2, List.count_eq_zero_of_not_mem hmem]
      simp
  · intro x
    rw [InventoryTracker.detect_zero_inventory, List.mem_filter,
      Bool.and_eq_true, decide_eq_true_eq, decide_eq_true_eq]

/-- C6: for every joined row, `change` is the difference of the two
quantities and `change_percent` is `change / (1 if previous quantity is
0 else previous quantity) * 100`; on the scenario
current `{id:1, wh:A, qty:0}`, previous `{id:1, wh:A, qty:50}` with
threshold 10 both implementations produce exactly one significant
change, with change -50 and change percentage -100. -/
theorem change_formulas_and_scenario :
    (∀ m : MergedQty,
        m.change = m.bestand_current - m.bestand_previous ∧
        m.change_percent = (m.change : ℚ) /
          (if m.bestand_previous = 0 then 1 else (m.bestand_previous : ℚ)) * 100) ∧
    ReportGenerator.calculate_changes 10 [scenarioCurrent] [scenarioPrevious] =
      { total_items := 1, increased := 0, decreased := 1, unchanged := 0,
        significant_changes := [⟨(1, 1), 0, 50⟩] } ∧
    InventoryTracker.compare_inventory_levels 10 [scenarioCurrent] [scenarioPrevious] =
      some { total_articles := 1, significant_changes := 1, details := [⟨(1, 1), 0, 50⟩] } ∧
    (⟨(1, 1), 0, 50⟩ : MergedQty).change = -50 ∧
    (⟨(1, 1), 0, 50⟩ : MergedQty).change_percent = -100 := by
  refine ⟨fun m => ⟨rfl, rfl⟩, ?_, ?_, by decide, ?_⟩
  · norm_num [ReportGenerator.calculate_changes, mergedRows, Record.key, Record.qty,
      scenarioCurrent, scenarioPrevious, isSignificant, MergedQty.change_percent,
      MergedQty.change]
  · norm_num [InventoryTracker.compare_inventory_levels, mergedRows, Record.key,
      Record.qty, scenarioCurrent, scenarioPrevious, compareRequiredCols, hasCol,
      isSignificant, MergedQty.change_percent, MergedQty.change]
  · norm_num [MergedQty.change_percent, MergedQty.change]

/-- C8: every row returned by either deactivation detector has previous
status active and current status inactive; in particular a reactivation
row (previous inactive, current active) never appears in the output. -/
theorem detectDeactivations_asymmetric (current previous : List Record) (r : StatusRow)
    (h : r ∈ InventoryTracker.detect_deactivations current previous ∨
        r ∈ ReportGenerator.detect_deactivations current previous) :
    r.status_previous = some "aktiv" ∧ r.status_current = some "inaktiv" ∧
      ¬(r.status_previous = some "inaktiv" ∧ r.status_current = some "aktiv") := by
  have hd : r ∈ deactivatedRows current previous := by
    rcases h with h | h
    · rw [InventoryTracker.detect_deactivations] at h
      by_cases hcols : (deactRequiredCols current && deactRequiredCols previous) = true
      · rwa [if_pos hcols] at h
      · rw [if_neg hcols] at h
        exact absurd h (List.not_mem_nil r)
    · exact h
  rw [deactivatedRows, List.mem_filter, Bool.and_eq_true,
    decide_eq_true_eq, decide_eq_true_eq] at hd
  obtain ⟨-, hprev, hcur⟩ := hd
  refine ⟨hprev, hcur, fun hcontra => ?_⟩
  simpa using hprev.symm.trans hcontra.1

/-- C9: when the previous-day snapshot is absent (`retrieve_historical_data`
returns `[]` for a missing snapshot file, lines 361-366), the daily
report carries no `changes` and no `deactivations` key and its
`zero_inventory` list is exactly the zero-stock detection of the current
snapshot. -/
theorem daily_report_no_previous (t : ℚ) (current : List Record) (h : current ≠ []) :
    ReportGenerator.generate_daily_report t current [] =
      some { total_articles := current.length
           , active_articles := ReportGenerator.activeCount current
           , zero_inventory :=
               (InventoryTracker.detect_zero_inventory current).map ReportGenerator.zeroItemOf
           , changes := none
           , deactivations := none } := by
  have hne : current.isEmpty = false := by
    cases current with
    | nil => exact absurd rfl h
    | cons a l => rfl
  simp only [ReportGenerator.generate_daily_report, hne, Bool.false_eq_true, if_false]
  rfl

/-- C10: a record without the quantity field is treated as quantity 0,
so an active record lacking the field is reported by
`detect_zero_inventory` and appears (projected) in the `zero_inventory`
list of the daily report. -/
theorem missing_quantity_counts_as_zero (S prev : List Record) (r : Record) (t : ℚ)
    (hmem : r ∈ S) (hq : r.bestand = none) (hs : r.status = some "aktiv") :
    r ∈ InventoryTracker.detect_zero_inventory S ∧
    ∀ rep, ReportGenerator.generate_daily_report t S prev = some rep →
      ReportGenerator.zeroItemOf r ∈ rep.zero_inventory := by
  have hq0 : r.qty = 0 := by
    rw [Record.qty, hq]
    rfl
  have hfil : r ∈ S.filter fun x => decide (x.qty = 0) && decide (x.status = some "aktiv") := by
    rw [List.mem_filter]
    exact ⟨hmem, by simp [hq0, hs]⟩
  refine ⟨by rw [InventoryTracker.detect_zero_inventory]; exact hfil, ?_⟩
  intro rep hrep
  have hne : S.isEmpty = false := by
    cases S with
    | nil => exact absurd hmem (List.not_mem_nil r)
    | cons a l => rfl
  rw [ReportGenerator.generate_daily_report] at hrep
  rw [hne] at hrep
  simp only [Bool.false_eq_true, if_false] at hrep
  have hx := Option.some.inj hrep
  rw [← hx]
  exact List.mem_map_of_mem ReportGenerator.zeroItemOf hfil

/-- C7: with at least two dates the trend label is `"increasing"`
exactly when the last active count exceeds 1.05 times the first,
`"decreasing"` exactly when it is below 0.95 times the first, and
`"stable"` otherwise; with 0 or 1 dates it is `"stable"`; the
active-count sequences [100, 105], [100, 106] and [100, 94] yield
`"stable"`, `"increasing"` and `"decreasing"`. -/
theorem trendLabel_spec :
    ReportGenerator.trendLabel [] = "stable" ∧
    (∀ d : String × List Record, ReportGenerator.trendLabel [d] = "stable") ∧
    (∀ (x y : String × List Record) (ys : List (String × List Record)),
      (ReportGenerator.trendLabel (x :: y :: ys) = "increasing" ↔
        (ReportGenerator.activeCount x.2 : ℚ) * 1.05 <
          (ReportGenerator.activeCount ((y :: ys).getLastD x).2 : ℚ)) ∧
      (ReportGenerator.trendLabel (x :: y :: ys) = "decreasing" ↔
        (ReportGenerator.activeCount ((y :: ys).getLastD x).2 : ℚ) <
          (ReportGenerator.activeCount x.2 : ℚ) * 0.95) ∧
      (ReportGenerator.trendLabel (x :: y :: ys) = "stable" ↔
        (¬ (ReportGenerator.activeCount x.2 : ℚ) * 1.05 <
            (ReportGenerator.activeCount ((y :: ys).getLastD x).2 : ℚ) ∧
         ¬ (ReportGenerator.activeCount ((y :: ys).getLastD x).2 : ℚ) <
            (ReportGenerator.activeCount x.2 : ℚ) * 0.95))) ∧
    ReportGenerator.trendLabel (trendData 100 105) = "stable" ∧
    ReportGenerator.trendLabel (trendData 100 106) = "increasing" ∧
    ReportGenerator.trendLabel (trendData 100 94) = "decreasing" := by
  refine ⟨rfl, fun d => rfl, ?_, ?_, ?_, ?_⟩
  · intro x y ys
    have hf : (0 : ℚ) ≤ (ReportGenerator.activeCount x.2 : ℚ) := Nat.cast_nonneg _
    have hlabel : ReportGenerator.trendLabel (x :: y :: ys) =
        if (ReportGenerator.activeCount x.2 : ℚ) * 1.05 <
            (ReportGenerator.activeCount ((y :: ys).getLastD x).2 : ℚ) then "increasing"
        else if (ReportGenerator.activeCount ((y :: ys).getLastD x).2 : ℚ) <
            (ReportGenerator.activeCount x.2 : ℚ) * 0.95 then "decreasing"
        else "stable" := rfl
    by_cases h1 : (ReportGenerator.activeCount x.2 : ℚ) * 1.05 <
        (ReportGenerator.activeCount ((y :: ys).getLastD x).2 : ℚ)
    · have hnd : ¬ (ReportGenerator.activeCount ((y :: ys).getLastD x).2 : ℚ) <
          (ReportGenerator.activeCount x.2 : ℚ) * 0.95 := by
        intro h2
        linarith
      rw [hlabel, if_pos h1]
      exact ⟨⟨fun _ => h1, fun _ => rfl⟩,
        ⟨fun he => absurd he (by decide), fun hd => absurd hd hnd⟩,
        ⟨fun he => absurd he (by decide), fun hc => absurd h1 hc.1⟩⟩
    · by_cases h2 : (ReportGenerator.activeCount ((y :: ys).getLastD x).2 : ℚ) <
          (ReportGenerator.activeCount x.2 : ℚ) * 0.95
      · rw [hlabel, if_neg h1, if_pos h2]
        exact ⟨⟨fun he => absurd he (by decide), fun hi => absurd hi h1⟩,
          ⟨fun _ => h2, fun _ => rfl⟩,
          ⟨fun he => absurd he (by decide), fun hc => absurd h2 hc.2⟩⟩
      · rw [hlabel, if_neg h1, if_neg h2]
        exact ⟨⟨fun he => absurd he (by decide), fun hi => absurd hi h1⟩,
          ⟨fun he => absurd he (by decide), fun hd => absurd hd h2⟩,
          ⟨fun _ => ⟨h1, h2⟩, fun _ => rfl⟩⟩
  · norm_num [trendData, ReportGenerator.trendLabel, List.getLastD,
      activeCount_replicate, fullRecord]
  · norm_num [trendData, ReportGenerator.trendLabel, List.getLastD,
      activeCount_replicate, fullRecord]
  · norm_num [trendData, ReportGenerator.trendLabel, List.getLastD,
      activeCount_replicate, fullRecord]

/-- C1 counterexample: on one snapshot date holding one active record of
category `"A"` and one of category `"B"`, the trend report generated
with filter `"A"` carries a summary whose active count is 2 — the
summary of the unfiltered data — while the summary of the filtered data
would count 1: the `TrendSummary` does not depend only on the filtered
records. -/
theorem trend_summary_not_filtered :
    (ReportGenerator.generate_trend_report mixedCategoryData (some "A")).map
        ReportGenerator.TrendReport.summary ≠
      some (ReportGenerator.generate_trend_summary
        (ReportGenerator.filterCategory "A" mixedCategoryData)) ∧
    (ReportGenerator.generate_trend_report mixedCategoryData (some "A")).map
        (fun rep => rep.summary.active_articles) = some [("2024-01-01", 2)] ∧
    (ReportGenerator.generate_trend_summary
        (ReportGenerator.filterCategory "A" mixedCategoryData)).active_articles =
      [("2024-01-01", 1)] := by
  have h2 : (ReportGenerator.generate_trend_report mixedCategoryData (some "A")).map
      (fun rep => rep.summary.active_articles) = some [("2024-01-01", 2)] := by
    norm_num [ReportGenerator.generate_trend_report, ReportGenerator.generate_trend_summary,
      ReportGenerator.activeCount, mixedCategoryData]
  have h3 : (ReportGenerator.generate_trend_summary
      (ReportGenerator.filterCategory "A" mixedCategoryData)).active_articles =
      [("2024-01-01", 1)] := by
    norm_num [ReportGenerator.generate_trend_summary, ReportGenerator.filterCategory,
      ReportGenerator.activeCount, mixedCategoryData]
    decide
  refine ⟨?_, h2, h3⟩
  intro h
  rcases hrep : ReportGenerator.generate_trend_report mixedCategoryData (some "A") with _ | rep
  · rw [hrep] at h2
    exact absurd h2 (by simp)
  · rw [hrep, Option.map_some'] at h h2
    have h4 := congrArg ReportGenerator.TrendSummary.active_articles (Option.some.inj h)
    rw [h3] at h4
    have h5 := Option.some.inj h2
    rw [h4] at h5
    exact absurd h5 (by decide)

/-- C1 amended: the category filter of `generate_trend_report` is
applied only after the trend summary has been computed, so the
`TrendSummary` of the report is that of the unfiltered snapshots and
only the chart data is restricted to the records matching the
category. -/
theorem trend_report_summary_unfiltered (data : List (String × List Record)) (c : String)
    (h : data ≠ []) :
    ReportGenerator.generate_trend_report data (some c) =
      some { category := some c
           , summary := ReportGenerator.generate_trend_summary data
           , chart_active := (ReportGenerator.filterCategory c data).map
               fun x => (x.1, ReportGenerator.activeCount x.2)
           , chart_zero := (ReportGenerator.filterCategory c data).map
               fun x => (x.1, ReportGenerator.zeroCount x.2) } := by
  have hne : data.isEmpty = false := by
    cases data with
    | nil => exact absurd rfl h
    | cons a l => rfl
  simp only [ReportGenerator.generate_trend_report, hne, Bool.false_eq_true, if_false]

/-- C2 counterexample: with the `bestand` column missing from the
current input, `compare_inventory_levels` returns the empty dict
(modelled as `none`), and with the `status` column missing,
`detect_deactivations` returns the empty list — a normal result in
either case; no `MalformedSnapshotError` (or any typed error) is
signalled, and no such type exists in the code. -/
theorem malformed_input_no_error :
    InventoryTracker.compare_inventory_levels 10 [noQuantityRecord] [fullRecord] = none ∧
    InventoryTracker.detect_deactivations [noStatusRecord] [fullRecord] = [] := by
  constructor
  · simp [InventoryTracker.compare_inventory_levels, compareRequiredCols, hasCol,
      noQuantityRecord]
  · simp [InventoryTracker.detect_deactivations, deactRequiredCols, hasCol,
      noStatusRecord]

/-- C2 amended: when a required column is absent from either input
(`artikel_id`, `artikelnummer`, `bestand` or `lager_id` for the level
comparison; `artikel_id` or `status` for the deactivation detector),
the functions log a warning and return a normal empty result — the
empty dict for `compare_inventory_levels` and the empty list for
`detect_deactivations` — instead of a typed error. -/
theorem missing_columns_return_empty (t : ℚ) (current previous : List Record) :
    ((compareRequiredCols current && compareRequiredCols previous) = false →
      InventoryTracker.compare_inventory_levels t current previous = none) ∧
    ((deactRequiredCols current && deactRequiredCols previous) = false →
      InventoryTracker.detect_deactivations current previous = []) := by
  constructor
  · intro h
    simp [InventoryTracker.compare_inventory_levels, h]
  · intro h
    simp [InventoryTracker.detect_deactivations, h]

/-!
## Witnesses
-/

/-- Witness for C3 at threshold 10 and the one-record snapshot
`[fullRecord]`. -/
theorem computeChanges_self_idempotent_witness :
    (0 : ℚ) < 10 ∧
    (ReportGenerator.calculate_changes 10 [fullRecord] [fullRecord]).significant_changes = [] :=
  ⟨by norm_num,
    (computeChanges_self_idempotent 10 [fullRecord] (by norm_num) (by decide)).2.1⟩

/-- Witness for C5 on the key-disjoint pair `[fullRecord]`,
`[scenarioPrevious]`. -/
theorem computeChanges_outer_join_witness :
    (∀ k ∈ [fullRecord].map Record.key, k ∉ [scenarioPrevious].map Record.key) ∧
    mergedRows [fullRecord] [scenarioPrevious] =
      [fullRecord].map (fun c => ⟨c.key, c.qty, 0⟩) ++
        [scenarioPrevious].map (fun p => ⟨p.key, 0, p.qty⟩) ∧
    (ReportGenerator.calculate_changes 10 [fullRecord] [scenarioPrevious]).total_items =
      [fullRecord].length + [scenarioPrevious].length :=
  ⟨by decide,
    (computeChanges_outer_join [fullRecord] [scenarioPrevious]).2.1 (by decide),
    (computeChanges_outer_join [fullRecord] [scenarioPrevious]).2.2 10 (by decide)⟩

/-- Witness for C4 on `[scenarioCurrent, fullRecord]` at the zero-stock
record `scenarioCurrent`. -/
theorem detect_zero_inventory_spec_witness :
    (∀ x ∈ [scenarioCurrent, fullRecord], x.bestand.isSome) ∧
    ((InventoryTracker.detect_zero_inventory [scenarioCurrent, fullRecord]).count
        scenarioCurrent =
      if scenarioCurrent.status = some "aktiv" ∧ scenarioCurrent.bestand = some 0 then
        ([scenarioCurrent, fullRecord] : List Record).count scenarioCurrent
      else 0) :=
  ⟨by decide,
    (detect_zero_inventory_spec [scenarioCurrent, fullRecord] scenarioCurrent (by decide)).1⟩

/-- Witness for C8 on inputs containing a deactivation (item 1) and a
reactivation (item 2). -/
theorem detectDeactivations_asymmetric_witness :
    deactivationRow ∈
      InventoryTracker.detect_deactivations [deactivatedCurrent, reactivatedCurrent]
        [deactivatedPrevious, reactivatedPrevious] ∧
    (deactivationRow.status_previous = some "aktiv" ∧
      deactivationRow.status_current = some "inaktiv" ∧
      ¬(deactivationRow.status_previous = some "inaktiv" ∧
        deactivationRow.status_current = some "aktiv")) :=
  ⟨by decide,
    detectDeactivations_asymmetric [deactivatedCurrent, reactivatedCurrent]
      [deactivatedPrevious, reactivatedPrevious] deactivationRow (Or.inl (by decide))⟩

/-- Witness for C9 on the one-record current snapshot `[fullRecord]`
with the previous snapshot absent. -/
theorem daily_report_no_previous_witness :
    ([fullRecord] : List Record) ≠ [] ∧
    ReportGenerator.generate_daily_report 10 [fullRecord] [] =
      some { total_articles := [fullRecord].length
           , active_articles := ReportGenerator.activeCount [fullRecord]
           , zero_inventory :=
               (InventoryTracker.detect_zero_inventory [fullRecord]).map
                 ReportGenerator.zeroItemOf
           , changes := none
           , deactivations := none } :=
  ⟨by decide, daily_report_no_previous 10 [fullRecord] (by decide)⟩

/-- Witness for C10 on the snapshot `[noQuantityRecord]` whose only
record lacks the quantity field. -/
theorem missing_quantity_counts_as_zero_witness :
    noQuantityRecord ∈ ([noQuantityRecord] : List Record) ∧
    noQuantityRecord.bestand = none ∧
    noQuantityRecord.status = some "aktiv" ∧
    noQuantityRecord ∈ InventoryTracker.detect_zero_inventory [noQuantityRecord] :=
  ⟨by decide, by decide, by decide,
    (missing_quantity_counts_as_zero [noQuantityRecord] [] noQuantityRecord 10
      (by decide) (by decide) (by decide)).1⟩

/-- Witness for the amended C1 on `mixedCategoryData` with category
`"A"`. -/
theorem trend_report_summary_unfiltered_witness :
    mixedCategoryData ≠ [] ∧
    ReportGenerator.generate_trend_report mixedCategoryData (some "A") =
      some { category := some "A"
           , summary := ReportGenerator.generate_trend_summary mixedCategoryData
           , chart_active := (ReportGenerator.filterCategory "A" mixedCategoryData).map
               fun x => (x.1, ReportGenerator.activeCount x.2)
           , chart_zero := (ReportGenerator.filterCategory "A" mixedCategoryData).map
               fun x => (x.1, ReportGenerator.zeroCount x.2) } :=
  ⟨by decide, trend_report_summary_unfiltered mixedCategoryData "A" (by decide)⟩

/-- Witness for the amended C2 on an empty current input, which has no
columns at all. -/
theorem missing_columns_return_empty_witness :
    (compareRequiredCols [] && compareRequiredCols [fullRecord]) = false ∧
    InventoryTracker.compare_inventory_levels 10 [] [fullRecord] = none ∧
    (deactRequiredCols [] && deactRequiredCols [fullRecord]) = false ∧
    InventoryTracker.detect_deactivations [] [fullRecord] = [] :=
  ⟨by decide, (missing_columns_return_empty 10 [] [fullRecord]).1 (by decide),
    by decide, (missing_columns_return_empty 10 [] [fullRecord]).2 (by decide)⟩
